import Mathlib

/-
  Verification development for the GodlyKidsGem2 voice-cloning service.

  Shallow embedding of src/ai-service/main.py and
  src/ai-service/patch_transformers.py.

  The service keeps one process-wide handle (the Python global tts_model,
  initially None), serves GET / (health) and POST /generate (synthesis),
  and ships a compatibility shim module for the transformers library.

  Modelling conventions:
  - the Python value of the global tts_model is Option TTSModel; a
    TTSModel carries its Python truthiness as a Bool field, so that both
    predicates of the source (tts_model is not None, and not tts_model)
    are expressible;
  - the filesystem is the list of paths currently on disk, and every
    handler additionally returns the ordered trace of filesystem events
    and of synthesis-library calls it performed;
  - the fallible external steps of the generate handler (writing the
    uploaded bytes with shutil.copyfileobj, and tts_model.tts_to_file)
    are oracles in a GenEnv record: each is an Except carrying either the
    exception message raised or the successful outcome;
  - the handlers are total Lean functions: every Python exception path of
    the source is an explicit branch, so no exception escapes a handler.
-/

namespace GodlyKids

/-- Python value of the global tts_model when it is not None. The truthy
field records the Python truthiness of the object, because main.py tests
the handle with two different predicates: read_root uses
(tts_model is not None) and generate_speech uses (not tts_model). -/
structure TTSModel where
  truthy : Bool
deriving DecidableEq, Repr

/-- Python truthiness of the global tts_model: None is falsy, otherwise
the truthiness of the held object. This is the predicate behind
(if not tts_model) in generate_speech. -/
def pyTruthy : Option TTSModel → Bool
  | none => false
  | some m => m.truthy

/-- Response of GET / in main.py: FastAPI returns the dict
with status 200. The dict is given as statusCode, status, model_loaded. -/
structure RootResponse where
  statusCode : Nat
  status : String
  model_loaded : Bool
deriving DecidableEq, Repr

/-- GET / handler of main.py: returns
status online and model_loaded = (tts_model is not None), HTTP 200.
It reads only the handle and performs no effect: it is a pure function
of the handle, hence side-effect free and idempotent by construction. -/
def read_root (tts_model : Option TTSModel) : RootResponse :=
  ⟨200, "online", tts_model.isSome⟩

/-- An HTTP response of the generate route: a 200 body with a media type,
or an HTTPException with a status code and a detail message. -/
inductive Response where
  | ok (body : List Nat) (mediaType : String)
  | error (statusCode : Nat) (detail : String)
deriving DecidableEq, Repr

/-- HTTP status code of a Response; a successful body is served as 200. -/
def statusCodeOf : Response → Nat
  | Response.ok _ _ => 200
  | Response.error code _ => code

/-- A filesystem event performed by a handler: creating a file on disk or
removing one (tempfile.NamedTemporaryFile, tts_to_file, os.remove). -/
inductive FsEvent where
  | create (path : String)
  | remove (path : String)
deriving DecidableEq, Repr

/-- A parsed multipart form of POST /generate, after FastAPI validation:
text (Form, required), language (Form, default en), speaker_wav (File,
required, its uploaded bytes). -/
structure GenRequest where
  text : String
  language : String
  speaker_wav : List Nat
deriving DecidableEq, Repr

/-- The raw multipart form of a POST /generate request, before FastAPI
validation: each field may be absent. -/
structure RawForm where
  text : Option String
  language : Option String
  speaker_wav : Option (List Nat)
deriving DecidableEq, Repr

/-- Outcome of FastAPI form validation: a parsed request, or a 422
request-validation error. -/
inductive ParseResult where
  | ok (req : GenRequest)
  | validationError
deriving DecidableEq, Repr

/-- FastAPI validation of the generate_speech signature in main.py:
text: str = Form(...) and speaker_wav: UploadFile = File(...) are
required, so a form missing either is rejected with 422 before the
handler body runs; language: str = Form("en") defaults to en when
absent. A present text field of any content, the empty string included,
passes validation: Form(...) constrains only presence and type. -/
def parseGenerateForm (f : RawForm) : ParseResult :=
  match f.text, f.speaker_wav with
  | some t, some w =>
      ParseResult.ok ⟨t, (match f.language with | some l => l | none => "en"), w⟩
  | _, _ => ParseResult.validationError

/-- Environment of one generate_speech call: the name handed out by
tempfile.NamedTemporaryFile (delete=False, suffix .wav), the outcome of
shutil.copyfileobj on the uploaded file, and the outcome of
tts_model.tts_to_file (exception message, or the audio bytes it writes
to file_path). -/
structure GenEnv where
  tempName : String
  copy : Except String Unit
  synth : Except String (List Nat)

/-- The first exception message raised inside the try block of
generate_speech for a given environment, if any: copyfileobj is reached
first, then tts_to_file. -/
def envError (env : GenEnv) : Option String :=
  match env.copy with
  | Except.error msg => some msg
  | Except.ok _ =>
    match env.synth with
    | Except.error msg => some msg
    | Except.ok _ => none

/-- Result of running a request handler: the HTTP response, the files on
disk afterwards, the ordered filesystem events performed, and the
ordered calls made to tts_model.tts_to_file, each recorded as
(text, language, speaker_wav path, file_path). -/
structure HandlerResult where
  response : Response
  fs : List String
  events : List FsEvent
  ttsCalls : List (String × String × String × String)
deriving DecidableEq, Repr

/-- The media type of the successful streaming response in main.py. -/
def audio_wav : String := "audio/wav"

/-- The detail message of the 503 HTTPException in main.py. -/
def modelNotLoadedMsg : String := "TTS Model is not loaded"

/-- Python temp_wav_path.replace with the constant arguments of main.py
inlined: every occurrence of .wav in the character list, scanned left to
right without overlap, becomes _output.wav, exactly as str.replace does
for a fixed pattern. -/
def replaceWavAux : List Char → List Char
  | '.' :: 'w' :: 'a' :: 'v' :: rest =>
      '_' :: 'o' :: 'u' :: 't' :: 'p' :: 'u' :: 't' :: '.' :: 'w' :: 'a' :: 'v'
        :: replaceWavAux rest
  | c :: rest => c :: replaceWavAux rest
  | [] => []

/-- output_path of main.py: temp_wav_path.replace of .wav by
_output.wav, applied to the whole path string. -/
def outputPathOf (s : String) : String :=
  String.mk (replaceWavAux s.data)

/-- POST /generate handler body of main.py, given the handle, the parsed
request, the call environment and the files on disk.
Source control flow:
  if not tts_model: raise HTTPException 503;
  try:
    NamedTemporaryFile delete=False suffix .wav  (creates temp_wav_path);
    copyfileobj speaker_wav.file temp_wav  (may raise);
    output_path := temp_wav_path.replace of .wav by _output.wav;
    tts_to_file text speaker_wav=temp_wav_path language file_path=output_path
      (may raise; on success creates output_path);
    read output_path fully into memory;
    os.remove temp_wav_path; os.remove output_path;
    return StreamingResponse audio/wav
  except Exception as e: raise HTTPException 500 str(e).
The except branch performs no cleanup, so files created before the
exception stay on disk. -/
def generate_speech (tts_model : Option TTSModel) (req : GenRequest)
    (env : GenEnv) (fs : List String) : HandlerResult :=
  if pyTruthy tts_model = false then
    ⟨Response.error 503 modelNotLoadedMsg, fs, [], []⟩
  else
    let temp_wav_path := env.tempName
    let fs1 := temp_wav_path :: fs
    match env.copy with
    | Except.error msg =>
        ⟨Response.error 500 msg, fs1, [FsEvent.create temp_wav_path], []⟩
    | Except.ok _ =>
      let output_path := outputPathOf temp_wav_path
      let call := (req.text, req.language, temp_wav_path, output_path)
      match env.synth with
      | Except.error msg =>
          ⟨Response.error 500 msg, fs1, [FsEvent.create temp_wav_path], [call]⟩
      | Except.ok audio_data =>
          ⟨Response.ok audio_data audio_wav,
            ((output_path :: fs1).erase temp_wav_path).erase output_path,
            [FsEvent.create temp_wav_path, FsEvent.create output_path,
              FsEvent.remove temp_wav_path, FsEvent.remove output_path],
            [call]⟩

/-- The full POST /generate route: FastAPI form validation, then the
handler body. A 422 request-validation error is produced before the
handler body runs, so neither the filesystem nor the model is touched. -/
def generate_route (tts_model : Option TTSModel) (f : RawForm)
    (env : GenEnv) (fs : List String) : HandlerResult :=
  match parseGenerateForm f with
  | ParseResult.validationError => ⟨Response.error 422 "field required", fs, [], []⟩
  | ParseResult.ok req => generate_speech tts_model req env fs

/-- Model name loaded by startup_event in main.py. -/
def xtts_model_name : String := "tts_models/multilingual/multi-dataset/xtts_v2"

/-- Device probing of startup_event in main.py:
device = cpu; if torch.cuda.is_available: cuda;
elif torch.backends.mps.is_available: mps. -/
def select_device (cudaAvailable mpsAvailable : Bool) : String :=
  if cudaAvailable then "cuda" else if mpsAvailable then "mps" else "cpu"

/-- Result of the startup hook: the value of the global tts_model
afterwards, and the ordered loads performed, each recorded as
(model name, device moved to). -/
structure StartupResult where
  tts_model : Option TTSModel
  loadCalls : List (String × String)

/-- startup_event of main.py: probes the device, then inside try runs
TTS(model name).to(device); on success the global is set to the loaded
model, on any exception the error is printed and swallowed (pass), the
global stays None, and the function returns normally, so the process
keeps serving. The loadTTS oracle is the outcome of the library call on
a given model name and device. -/
def startup_event (cudaAvailable mpsAvailable : Bool)
    (loadTTS : String → String → Except String TTSModel) : StartupResult :=
  let device := select_device cudaAvailable mpsAvailable
  match loadTTS xtts_model_name device with
  | Except.ok m => ⟨some m, [(xtts_model_name, device)]⟩
  | Except.error _ => ⟨none, [(xtts_model_name, device)]⟩

/-- The module-level import list of main.py, in source order: os, torch,
fastapi, fastapi.responses, TTS.api, uvicorn, io, tempfile, shutil.
Importing a module executes it, so a shim module runs at process start
exactly when it appears in this list before TTS.api. -/
def mainModuleImports : List String :=
  ["os", "torch", "fastapi", "fastapi.responses", "TTS.api", "uvicorn", "io",
    "tempfile", "shutil"]

/-- Name of the compatibility shim module of the repository. -/
def shimModuleName : String := "patch_transformers"

/-- Name of the synthesis library module whose import must be preceded by
the shim, per the shim docstring. -/
def ttsApiModuleName : String := "TTS.api"

/-- The moved symbol the shim re-exposes at the legacy location. -/
def beamSearchScorerName : String := "BeamSearchScorer"

/-- patched_getattr of patch_transformers.py: attribute lookup on the
transformers module after the shim ran; BeamSearchScorer resolves to the
moved symbol, every other name falls through to the original module
getattr when one existed, else an AttributeError message is raised.
Attribute values are modelled as string tags. -/
def patched_getattr (beamSearchScorer : String)
    (original_getattr : Option (String → Except String String))
    (name : String) : Except String String :=
  if name = beamSearchScorerName then Except.ok beamSearchScorer
  else
    match original_getattr with
    | some g => g name
    | none =>
        Except.error ("module transformers has no attribute " ++ name)

/- Concrete values used by closed theorems below. -/

/-- A concrete temp file name of the shape NamedTemporaryFile yields. -/
def sampleTempName : String := "/tmp/tmp1b2c.wav"

/-- A concrete exception message for a failing tts_to_file call. -/
def synthFailMsg : String := "synthesis failed"

/-- A concrete parsed request. -/
def sampleReq : GenRequest := ⟨"hello", "en", [1, 2, 3]⟩

/-- The empty text string. -/
def emptyText : String := ""

/-- C1: refutation on the code. With the model loaded, when tts_to_file
raises, the handler answers 500 but the persisted reference sample
created by the request is still on disk after the handler completes: the
cleanup of the source runs only on the success path, so the claimed
invariant that no temp file survives any exit path fails. -/
theorem generate_leaks_temp_on_synth_error :
    (generate_speech (some ⟨true⟩) sampleReq
        ⟨sampleTempName, Except.ok (), Except.error synthFailMsg⟩ []).fs
      = [sampleTempName]
    ∧ (generate_speech (some ⟨true⟩) sampleReq
        ⟨sampleTempName, Except.ok (), Except.error synthFailMsg⟩ []).response
      = Response.error 500 synthFailMsg :=
  ⟨rfl, rfl⟩

/-- C2: when the model handle is unset (None), POST /generate answers 503
with the service-unavailable detail, performs no filesystem event, makes
no synthesis call, and leaves the filesystem unchanged: the 503 is
raised before any input is touched or any temp file is created. -/
theorem generate_unset_model_503_no_writes (req : GenRequest) (env : GenEnv)
    (fs : List String) :
    generate_speech none req env fs
      = ⟨Response.error 503 modelNotLoadedMsg, fs, [], []⟩ :=
  rfl

/-- C3: with the model handle populated (truthy), any exception raised
inside the try block of generate_speech — during temp-file handling or
synthesis — is caught at the handler boundary and answered as HTTP 500
whose detail is exactly that exception message; the handler is a total
function, so no exception escapes the request handler. -/
theorem generate_exception_caught_as_500 (tts_model : Option TTSModel)
    (req : GenRequest) (env : GenEnv) (fs : List String) (msg : String)
    (htruthy : pyTruthy tts_model = true) (hmsg : envError env = some msg) :
    (generate_speech tts_model req env fs).response = Response.error 500 msg := by
  obtain ⟨tempName, copy, synth⟩ := env
  cases copy with
  | error m2 =>
      obtain rfl : m2 = msg := by simpa [envError] using hmsg
      simp [generate_speech, htruthy]
  | ok u =>
      cases synth with
      | error m2 =>
          obtain rfl : m2 = msg := by simpa [envError] using hmsg
          simp [generate_speech, htruthy]
      | ok audio => simp [envError] at hmsg

/-- Witness for C3 at a concrete input: copyfileobj raising is answered
as a 500 carrying its message. -/
theorem generate_exception_caught_as_500_witness :
    (generate_speech (some ⟨true⟩) sampleReq
        ⟨sampleTempName, Except.error synthFailMsg, Except.ok []⟩ []).response
      = Response.error 500 synthFailMsg :=
  generate_exception_caught_as_500 (some ⟨true⟩) sampleReq
    ⟨sampleTempName, Except.error synthFailMsg, Except.ok []⟩ [] synthFailMsg
    rfl rfl

/-- C4: the successful procedure of POST /generate, in order: the
uploaded reference audio is persisted to the temp file, tts_to_file is
invoked once with the text, the language, that reference path and the
derived output path, the produced file is read into memory, both temp
files are removed, and the body is returned with status 200 and media
type audio/wav, leaving the filesystem as it was. -/
theorem generate_success_procedure (tts_model : Option TTSModel)
    (req : GenRequest) (env : GenEnv) (fs : List String) (audio : List Nat)
    (htruthy : pyTruthy tts_model = true)
    (hcopy : env.copy = Except.ok ())
    (hsynth : env.synth = Except.ok audio)
    (hne : outputPathOf env.tempName ≠ env.tempName) :
    generate_speech tts_model req env fs
      = ⟨Response.ok audio audio_wav, fs,
          [FsEvent.create env.tempName,
            FsEvent.create (outputPathOf env.tempName),
            FsEvent.remove env.tempName,
            FsEvent.remove (outputPathOf env.tempName)],
          [(req.text, req.language, env.tempName, outputPathOf env.tempName)]⟩ := by
  obtain ⟨tempName, copy, synth⟩ := env
  simp only at hcopy hsynth hne
  subst hcopy
  subst hsynth
  simp only [generate_speech, htruthy]
  simp [List.erase_cons, hne]

/-- Witness for C4 at a concrete input. -/
theorem generate_success_procedure_witness :
    generate_speech (some ⟨true⟩) sampleReq
        ⟨sampleTempName, Except.ok (), Except.ok [9, 9]⟩ []
      = ⟨Response.ok [9, 9] audio_wav, [],
          [FsEvent.create sampleTempName,
            FsEvent.create (outputPathOf sampleTempName),
            FsEvent.remove sampleTempName,
            FsEvent.remove (outputPathOf sampleTempName)],
          [(sampleReq.text, sampleReq.language, sampleTempName,
            outputPathOf sampleTempName)]⟩ :=
  generate_success_procedure (some ⟨true⟩) sampleReq
    ⟨sampleTempName, Except.ok (), Except.ok [9, 9]⟩ [] [9, 9]
    rfl rfl rfl (by decide)

/-- C5: refutation on the code. The import list of main.py does not
contain the shim module patch_transformers at all (while it does import
TTS.api), so the compatibility shim is never executed before the
synthesis library is loaded — against the docstring of the shim itself,
which requires it to be imported before TTS.api. -/
theorem shim_never_imported_before_tts :
    shimModuleName ∉ mainModuleImports ∧ ttsApiModuleName ∈ mainModuleImports := by
  decide

/-- C6: if the model load in startup_event raises, the exception is
swallowed, the global handle stays unset (None), and the process keeps
serving: GET / answers 200 with model_loaded = false, and every
POST /generate answers 503 with the service-unavailable detail. -/
theorem startup_load_failure_degrades (cudaAvailable mpsAvailable : Bool)
    (loadTTS : String → String → Except String TTSModel) (msg : String)
    (hfail : loadTTS xtts_model_name (select_device cudaAvailable mpsAvailable)
      = Except.error msg) :
    (startup_event cudaAvailable mpsAvailable loadTTS).tts_model = none
    ∧ (read_root none).model_loaded = false
    ∧ (read_root none).statusCode = 200
    ∧ ∀ req env fs,
        (generate_speech none req env fs).response
          = Response.error 503 modelNotLoadedMsg := by
  refine ⟨?_, rfl, rfl, fun req env fs => rfl⟩
  simp [startup_event, hfail]

/-- Witness for C6 at a concrete input: a load oracle that always
raises leaves the handle unset. -/
theorem startup_load_failure_degrades_witness :
    (startup_event false false (fun _ _ => Except.error synthFailMsg)).tts_model
      = none :=
  (startup_load_failure_degrades false false
    (fun _ _ => Except.error synthFailMsg) synthFailMsg rfl).1

/-- C7: refutation of the non-empty-text requirement. A form whose text
field is present but empty passes FastAPI validation, reaches the
handler, and is handed to the synthesis call with the empty text: the
route does not require text to be non-empty. -/
theorem empty_text_passes_validation :
    (generate_route (some ⟨true⟩) ⟨some emptyText, none, some [7]⟩
        ⟨sampleTempName, Except.ok (), Except.ok [9]⟩ []).response
      = Response.ok [9] audio_wav
    ∧ (generate_route (some ⟨true⟩) ⟨some emptyText, none, some [7]⟩
        ⟨sampleTempName, Except.ok (), Except.ok [9]⟩ []).ttsCalls
      = [(emptyText, "en", sampleTempName, outputPathOf sampleTempName)] :=
  ⟨rfl, rfl⟩

/-- C7 amended: a form missing text or missing speaker_wav is rejected
with a 422 request-validation error before the handler runs — no
filesystem event, no synthesis call — and an omitted language field
defaults to en; a present text field of any content (empty included)
passes validation. -/
theorem generate_form_validation (tts_model : Option TTSModel) (f : RawForm)
    (env : GenEnv) (fs : List String) :
    ((f.text = none ∨ f.speaker_wav = none) →
        generate_route tts_model f env fs
          = ⟨Response.error 422 "field required", fs, [], []⟩)
    ∧ (∀ t w, f.text = some t → f.speaker_wav = some w → f.language = none →
        parseGenerateForm f = ParseResult.ok ⟨t, "en", w⟩) := by
  obtain ⟨ft, fl, fw⟩ := f
  constructor
  · rintro (h | h)
    · simp only at h
      subst h
      cases fw <;> rfl
    · simp only at h
      subst h
      cases ft <;> rfl
  · intro t w h1 h2 h3
    simp only at h1 h2 h3
    subst h1; subst h2; subst h3
    rfl

/-- Witness for C7 amended at a concrete input: a form missing the text
field is rejected with 422 and nothing else happens. -/
theorem generate_form_validation_witness :
    generate_route none ⟨none, none, some [7]⟩
        ⟨sampleTempName, Except.ok (), Except.ok []⟩ []
      = ⟨Response.error 422 "field required", [], [], []⟩ :=
  (generate_form_validation none ⟨none, none, some [7]⟩
    ⟨sampleTempName, Except.ok (), Except.ok []⟩ []).1 (Or.inl rfl)

/-- C8: startup probes the device in the fixed priority order cuda, then
mps, then cpu, and performs exactly one load of the named pretrained
model onto exactly the selected device. -/
theorem startup_device_selection (cudaAvailable mpsAvailable : Bool)
    (loadTTS : String → String → Except String TTSModel) :
    (startup_event cudaAvailable mpsAvailable loadTTS).loadCalls
      = [(xtts_model_name, select_device cudaAvailable mpsAvailable)]
    ∧ (∀ b, select_device true b = "cuda")
    ∧ select_device false true = "mps"
    ∧ select_device false false = "cpu" := by
  refine ⟨?_, fun b => rfl, rfl, rfl⟩
  cases h : loadTTS xtts_model_name (select_device cudaAvailable mpsAvailable) <;>
    simp [startup_event, h]

/-- C9: GET / always answers 200 with status online and model_loaded
reporting whether the handle is populated (is not None); read_root is a
pure function of the handle alone, so it has no side effects and
repeated calls with an unchanged handle return the same payload. -/
theorem read_root_contract (tts_model : Option TTSModel) :
    read_root tts_model = ⟨200, "online", tts_model.isSome⟩
    ∧ ((read_root tts_model).model_loaded = true ↔ tts_model ≠ none) := by
  refine ⟨rfl, ?_⟩
  cases tts_model <;> simp [read_root]

/-- C10: the two endpoints test the same handle with different
predicates: for a handle holding a falsy-but-not-None value, GET /
reports model_loaded = true while POST /generate answers 503. -/
theorem availability_predicate_mismatch (m : TTSModel)
    (hfalsy : m.truthy = false) :
    (read_root (some m)).model_loaded = true
    ∧ ∀ req env fs,
        (generate_speech (some m) req env fs).response
          = Response.error 503 modelNotLoadedMsg := by
  refine ⟨rfl, fun req env fs => ?_⟩
  simp [generate_speech, pyTruthy, hfalsy]

/-- Witness for C10 at a concrete falsy handle. -/
theorem availability_predicate_mismatch_witness :
    (read_root (some ⟨false⟩)).model_loaded = true
    ∧ (generate_speech (some ⟨false⟩) sampleReq
        ⟨sampleTempName, Except.ok (), Except.ok []⟩ []).response
      = Response.error 503 modelNotLoadedMsg :=
  ⟨(availability_predicate_mismatch ⟨false⟩ rfl).1,
    (availability_predicate_mismatch ⟨false⟩ rfl).2 sampleReq
      ⟨sampleTempName, Except.ok (), Except.ok []⟩ []⟩

/-- Sanity: after the shim ran, the moved symbol resolves under the
legacy top-level name through patched_getattr, and other lookups fall
through to the original module getattr. -/
theorem patched_getattr_resolves (v : String)
    (g : Option (String → Except String String)) :
    patched_getattr v g beamSearchScorerName = Except.ok v := by
  simp [patched_getattr]

end GodlyKids
